import Mathlib

/- Formal model of the builtrix energy backend (src/index.js).

   The SQLite store is embedded shallowly: each table is a list of records,
   SQL REAL is modelled as the rationals (the claims under study are about the
   relational structure of the queries, not float rounding), TEXT is String,
   and the SQL NULL produced by a left join with no match is an Option.
   The csv-parser rows arrive as records whose numeric fields already went
   through parseFloat (an unparseable field would be NaN, which SQLite stores
   as NULL; no claim depends on that path).  strftime field extraction on the
   well-formed ISO-8601 timestamp strings of this dataset is prefix/slice
   extraction, and the BINARY collation used by ORDER BY on TEXT is
   lexicographic string order. -/

/-- JS String.prototype.trim: strip leading and trailing whitespace.
    (Core String.trim is not kernel-reducible, so the char-list form is used.) -/
def jsTrim (s : String) : String :=
  ⟨((s.data.dropWhile Char.isWhitespace).reverse.dropWhile Char.isWhitespace).reverse⟩

/-- One parsed row of metadata.csv after the positional header mapping of
    loadCSVData (src/index.js:96-110). -/
structure MetaRow where
  cpe : String
  lat : Option ℚ
  lon : Option ℚ
  totalarea : Option ℚ
  name : String
  fulladdress : String
deriving DecidableEq

/-- A row of the metadata table (src/index.js:25-34). -/
structure Metadata where
  cpe : String
  lat : Option ℚ
  lon : Option ℚ
  totalarea : Option ℚ
  name : String
  fulladdress : String
deriving DecidableEq

/-- A parsed row of smart_meter.csv; the loader persists the three fields
    verbatim (src/index.js:157-158), so the same record type serves as a row
    of the smart_meter_data table (the AUTOINCREMENT surrogate id is internal
    addressing only and is dropped). -/
structure SmartMeterRow where
  cpe : String
  timestamp : String
  active_energy : ℚ
deriving DecidableEq

/-- A parsed row of energy_source_breakdown.csv (src/index.js:186-202):
    the non-id columns of the energy_breakdown table in schema order.
    Also serves as the id-less projection of a stored row. -/
structure BreakdownCsvRow where
  timestamp : String
  renewable_biomass : ℚ
  renewable_hydro : ℚ
  renewable_solar : ℚ
  renewable_wind : ℚ
  renewable_geothermal : ℚ
  renewable_otherrenewable : ℚ
  renewable : ℚ
  nonrenewable_coal : ℚ
  nonrenewable_gas : ℚ
  nonrenewable_nuclear : ℚ
  nonrenewable_oil : ℚ
  nonrenewable : ℚ
  hydropumpedstorage : ℚ
  unknown : ℚ
deriving DecidableEq

/-- A row of the energy_breakdown table (src/index.js:46-65), fields in
    schema order including the INTEGER PRIMARY KEY AUTOINCREMENT id,
    which the SELECT * of GET /api/energy-breakdown returns.  (The
    smart_meter_data table also has such an id, but no query of this
    program ever selects it, so it stays out of the model.) -/
structure BreakdownRow where
  id : Nat
  timestamp : String
  renewable_biomass : ℚ
  renewable_hydro : ℚ
  renewable_solar : ℚ
  renewable_wind : ℚ
  renewable_geothermal : ℚ
  renewable_otherrenewable : ℚ
  renewable : ℚ
  nonrenewable_coal : ℚ
  nonrenewable_gas : ℚ
  nonrenewable_nuclear : ℚ
  nonrenewable_oil : ℚ
  nonrenewable : ℚ
  hydropumpedstorage : ℚ
  unknown : ℚ
deriving DecidableEq

/-- The stored breakdown row for a CSV row under a given AUTOINCREMENT
    id (src/index.js:178-202). -/
def mkBreakdownRow (i : Nat) (r : BreakdownCsvRow) : BreakdownRow :=
  ⟨i, r.timestamp, r.renewable_biomass, r.renewable_hydro, r.renewable_solar,
    r.renewable_wind, r.renewable_geothermal, r.renewable_otherrenewable,
    r.renewable, r.nonrenewable_coal, r.nonrenewable_gas, r.nonrenewable_nuclear,
    r.nonrenewable_oil, r.nonrenewable, r.hydropumpedstorage, r.unknown⟩

/-- The id-less projection of a stored breakdown row: the 15 columns the
    ingestion copies from the CSV. -/
def stripId (r : BreakdownRow) : BreakdownCsvRow :=
  ⟨r.timestamp, r.renewable_biomass, r.renewable_hydro, r.renewable_solar,
    r.renewable_wind, r.renewable_geothermal, r.renewable_otherrenewable,
    r.renewable, r.nonrenewable_coal, r.nonrenewable_gas, r.nonrenewable_nuclear,
    r.nonrenewable_oil, r.nonrenewable, r.hydropumpedstorage, r.unknown⟩

/-- The metadata record persisted for a CSV row: cpe is trimmed, the other
    fields are copied (src/index.js:125-132). -/
def mkMetadata (r : MetaRow) : Metadata :=
  ⟨jsTrim r.cpe, r.lat, r.lon, r.totalarea, r.name, r.fulladdress⟩

/-- The guard of the metadata insert loop, src/index.js:124:
    row.cpe && row.cpe.trim() — both JS truthiness tests, i.e. non-empty. -/
def validMetaRow (r : MetaRow) : Bool :=
  decide (r.cpe ≠ "") && decide (jsTrim r.cpe ≠ "")

/-- INSERT OR REPLACE INTO metadata keyed on the cpe PRIMARY KEY
    (src/index.js:119): replace the row with the same key if present,
    otherwise append. -/
def upsertMetadata (tbl : List Metadata) (m : Metadata) : List Metadata :=
  if tbl.any (fun x => decide (x.cpe = m.cpe)) then
    tbl.map (fun x => if x.cpe = m.cpe then m else x)
  else
    tbl ++ [m]

/-- The metadata insert loop over the parsed rows (src/index.js:123-137),
    starting from the table emptied by the DELETE at src/index.js:82. -/
def loadMetadata (rows : List MetaRow) : List Metadata :=
  rows.foldl (fun tbl r => if validMetaRow r then upsertMetadata tbl (mkMetadata r) else tbl) []

/-- JS truthiness of row.cpe in the smart-meter data handler
    (src/index.js:156): the string is non-empty.  Note: no trimming here. -/
def smValid (r : SmartMeterRow) : Bool :=
  decide (r.cpe ≠ "")

/-- The smart-meter data handler loop (src/index.js:155-162): insert while
    count < maxRecords (10000) and row.cpe is truthy; only inserted rows
    advance count. -/
def loadSmartMeterGo : Nat → List SmartMeterRow → List SmartMeterRow
  | _, [] => []
  | count, r :: rs =>
    if decide (count < 10000) && smValid r then
      r :: loadSmartMeterGo (count + 1) rs
    else
      loadSmartMeterGo count rs

/-- Full smart_meter.csv load (src/index.js:147-166), table emptied first by
    the DELETE at src/index.js:80. -/
def loadSmartMeter (rows : List SmartMeterRow) : List SmartMeterRow :=
  loadSmartMeterGo 0 rows

/-- The energy-breakdown data handler loop (src/index.js:176-205): insert
    while count < maxRecords (1000); every row counts, there is no
    validity guard.  Each inserted row receives the next AUTOINCREMENT
    id. -/
def loadBreakdownGo : Nat → Nat → List BreakdownCsvRow → List BreakdownRow
  | _, _, [] => []
  | nextId, count, r :: rs =>
    if decide (count < 1000) then
      mkBreakdownRow nextId r :: loadBreakdownGo (nextId + 1) (count + 1) rs
    else
      loadBreakdownGo nextId count rs

/-- Full energy_source_breakdown.csv load (src/index.js:168-210): rows
    receive consecutive AUTOINCREMENT ids starting above the
    sqlite_sequence high-water mark seq — which the DELETE FROM at
    src/index.js:81 does not reset. -/
def loadEnergyBreakdown (seq : Nat) (rows : List BreakdownCsvRow) : List BreakdownRow :=
  loadBreakdownGo (seq + 1) 0 rows

/-- The three relations of the store, together with the sqlite_sequence
    high-water mark for energy_breakdown's AUTOINCREMENT id (the only
    surrogate id any query of this program returns). -/
structure Db where
  metadata : List Metadata
  smart_meter_data : List SmartMeterRow
  energy_breakdown : List BreakdownRow
  breakdown_seq : Nat
deriving DecidableEq

/-- The three optional CSV sources of loadCSVData; an absent file is skipped
    (src/index.js:86, 148, 169). -/
structure Sources where
  metadataCsv : Option (List MetaRow)
  smartMeterCsv : Option (List SmartMeterRow)
  breakdownCsv : Option (List BreakdownCsvRow)

/-- loadCSVData (src/index.js:76-214): the three DELETE statements clear all
    prior rows (src/index.js:80-82) but do not reset sqlite_sequence, then
    each present source is loaded from scratch; an absent source leaves its
    freshly cleared table empty.  AUTOINCREMENT advances the sequence past
    every id it hands out. -/
def loadCSVData (s : Sources) (db : Db) : Db :=
  { metadata := match s.metadataCsv with
      | some rows => loadMetadata rows
      | none => []
    smart_meter_data := match s.smartMeterCsv with
      | some rows => loadSmartMeter rows
      | none => []
    energy_breakdown := match s.breakdownCsv with
      | some rows => loadEnergyBreakdown db.breakdown_seq rows
      | none => []
    breakdown_seq := match s.breakdownCsv with
      | some rows => db.breakdown_seq + (loadEnergyBreakdown db.breakdown_seq rows).length
      | none => db.breakdown_seq }

/- ------------------------------------------------------------------ -/
/- Characterization of the capped smart-meter load.                    -/
/- ------------------------------------------------------------------ -/

theorem loadSmartMeterGo_eq (rs : List SmartMeterRow) :
    ∀ c, loadSmartMeterGo c rs = (rs.filter smValid).take (10000 - c) := by
  induction rs with
  | nil => intro c; simp [loadSmartMeterGo]
  | cons r t ih =>
    intro c
    by_cases hv : smValid r
    · by_cases hc : c < 10000
      · have h1 : 10000 - c = (10000 - (c + 1)) + 1 := by omega
        simp [loadSmartMeterGo, hv, hc, List.filter_cons, h1, List.take_succ_cons, ih]
      · have h0 : 10000 - c = 0 := by omega
        simp [loadSmartMeterGo, hv, hc, List.filter_cons, h0, ih]
    · simp [loadSmartMeterGo, hv, List.filter_cons, ih]

theorem loadSmartMeter_eq (rows : List SmartMeterRow) :
    loadSmartMeter rows = (rows.filter smValid).take 10000 :=
  loadSmartMeterGo_eq rows 0

theorem filter_replicate_of_false {α : Type} {p : α → Bool} {a : α} (h : p a = false) :
    ∀ n, (List.replicate n a).filter p = [] := by
  intro n
  induction n with
  | zero => simp
  | succ k ih => simp [List.replicate_succ, List.filter_cons, h, ih]

theorem filter_replicate_of_true {α : Type} {p : α → Bool} {a : α} (h : p a = true) :
    ∀ n, (List.replicate n a).filter p = List.replicate n a := by
  intro n
  induction n with
  | zero => simp
  | succ k ih => simp [List.replicate_succ, List.filter_cons, h, ih]

/- ------------------------------------------------------------------ -/
/- Aggregation query engine.                                           -/
/- ------------------------------------------------------------------ -/

/-- strftime('%Y', ts) on a well-formed ISO-8601 timestamp string. -/
def fmtYear (ts : String) : String := ts.take 4

/-- strftime('%Y-%m', ts). -/
def fmtYearMonth (ts : String) : String := ts.take 7

/-- strftime('%Y-%m-%d', ts). -/
def fmtDay (ts : String) : String := ts.take 10

/-- strftime('%H:00', ts): the hour field (characters 11-12 of the ISO
    string) followed by ":00".  The hourly endpoint groups by strftime('%H')
    but labels with strftime('%H:00'); the two induce the same partition, so
    the label doubles as the group key here. -/
def fmtHour (ts : String) : String := (ts.drop 11).take 2 ++ ":00"

/-- SQL GROUP BY key with SELECT key, SUM(val): one output row per distinct
    key of the input, carrying the sum of val over the rows with that key.
    SQL SUM skips NULL addends and the queries below wrap an aggregate that
    could be NULL in COALESCE(..., 0) (or never aggregate a NULL), so the
    sum is taken in ℚ with NULL contributing 0. -/
def groupSums {α κ : Type} [DecidableEq κ] (key : α → κ) (val : α → ℚ)
    (l : List α) : List (κ × ℚ) :=
  (l.map key).dedup.map
    (fun k => (k, ((l.filter (fun x => decide (key x = k))).map val).sum))

/-- The rows a single metadata row contributes to
    metadata LEFT JOIN smart_meter_data ON m.cpe = smd.cpe: its matching
    readings, or a single NULL-extended row when there is no match. -/
def joinBlock (m : Metadata) (smd : List SmartMeterRow) :
    List (Metadata × Option SmartMeterRow) :=
  if (smd.filter (fun r => decide (r.cpe = m.cpe))).isEmpty then
    [(m, none)]
  else
    (smd.filter (fun r => decide (r.cpe = m.cpe))).map (fun r => (m, some r))

/-- metadata LEFT JOIN smart_meter_data ON m.cpe = smd.cpe
    (src/index.js:226-227 and 333-334). -/
def leftJoin (meta : List Metadata) (smd : List SmartMeterRow) :
    List (Metadata × Option SmartMeterRow) :=
  meta.flatMap (fun m => joinBlock m smd)

/-- The active_energy addend a joined row contributes to
    COALESCE(SUM(smd.active_energy), 0): a NULL-extended row contributes
    nothing (SUM skips NULL and COALESCE turns an all-NULL aggregate
    into 0). -/
def joinEnergy : Metadata × Option SmartMeterRow → ℚ
  | (_, some r) => r.active_energy
  | (_, none) => 0

/-- ORDER BY annual_energy DESC on the per-building rows. -/
def energyDescRel : Metadata × ℚ → Metadata × ℚ → Prop :=
  fun a b => b.2 ≤ a.2

instance : DecidableRel energyDescRel :=
  fun a b => inferInstanceAs (Decidable (b.2 ≤ a.2))

instance : IsTotal (Metadata × ℚ) energyDescRel :=
  ⟨fun a b => le_total b.2 a.2⟩

instance : IsTrans (Metadata × ℚ) energyDescRel :=
  ⟨fun _ _ _ hab hbc => le_trans hbc hab⟩

/-- ORDER BY the textual bucket label (month / day / hour) ascending. -/
def bucketAscRel : String × ℚ → String × ℚ → Prop :=
  fun a b => a.1 ≤ b.1

instance : DecidableRel bucketAscRel :=
  fun a b => inferInstanceAs (Decidable (a.1 ≤ b.1))

instance : IsTotal (String × ℚ) bucketAscRel :=
  ⟨fun a b => le_total a.1 b.1⟩

instance : IsTrans (String × ℚ) bucketAscRel :=
  ⟨fun _ _ _ hab hbc => le_trans hab hbc⟩

/-- ORDER BY timestamp on energy_breakdown rows. -/
def tsAscRel : BreakdownRow → BreakdownRow → Prop :=
  fun a b => a.timestamp ≤ b.timestamp

instance : DecidableRel tsAscRel :=
  fun a b => inferInstanceAs (Decidable (a.timestamp ≤ b.timestamp))

instance : IsTotal BreakdownRow tsAscRel :=
  ⟨fun a b => le_total a.timestamp b.timestamp⟩

instance : IsTrans BreakdownRow tsAscRel :=
  ⟨fun _ _ _ hab hbc => le_trans hab hbc⟩

/-- The same ORDER BY timestamp on the id-less projection of breakdown
    rows, used to state that query results ignore the surrogate id. -/
def csvTsAscRel : BreakdownCsvRow → BreakdownCsvRow → Prop :=
  fun a b => a.timestamp ≤ b.timestamp

instance : DecidableRel csvTsAscRel :=
  fun a b => inferInstanceAs (Decidable (a.timestamp ≤ b.timestamp))

/-- GET /api/buildings (src/index.js:216-240): left join, group by the
    metadata columns (cpe is the primary key, so one group per building),
    COALESCE(SUM(active_energy), 0), ORDER BY annual_energy DESC. -/
def apiBuildings (db : Db) : List (Metadata × ℚ) :=
  List.insertionSort energyDescRel
    (groupSums Prod.fst joinEnergy (leftJoin db.metadata db.smart_meter_data))

/-- strftime('%Y', timestamp) = yearParam where yearParam may be the SQL NULL
    bound for a missing req.query.year (node-sqlite3 binds undefined as
    NULL); a comparison with NULL never holds. -/
def yearFilter : Option String → String → Bool
  | none, _ => false
  | some y, ts => decide (fmtYear ts = y)

/-- The monthly branch of GET /api/energy/:cpe/:period
    (src/index.js:250-261). -/
def monthlyQuery (cpe : String) (year : Option String)
    (smd : List SmartMeterRow) : List (String × ℚ) :=
  List.insertionSort bucketAscRel
    (groupSums (fun r => fmtYearMonth r.timestamp) (fun r => r.active_energy)
      (smd.filter (fun r => decide (r.cpe = cpe) && yearFilter year r.timestamp)))

/-- The daily branch (src/index.js:262-273): filter on
    strftime('%Y-%m', timestamp) = monthParam. -/
def dailyQuery (cpe monthParam : String) (smd : List SmartMeterRow) :
    List (String × ℚ) :=
  List.insertionSort bucketAscRel
    (groupSums (fun r => fmtDay r.timestamp) (fun r => r.active_energy)
      (smd.filter (fun r => decide (r.cpe = cpe) && decide (fmtYearMonth r.timestamp = monthParam))))

/-- The hourly branch (src/index.js:274-285): filter on
    strftime('%Y-%m-%d', timestamp) = dayParam. -/
def hourlyQuery (cpe dayParam : String) (smd : List SmartMeterRow) :
    List (String × ℚ) :=
  List.insertionSort bucketAscRel
    (groupSums (fun r => fmtHour r.timestamp) (fun r => r.active_energy)
      (smd.filter (fun r => decide (r.cpe = cpe) && decide (fmtDay r.timestamp = dayParam))))

/-- JS template-literal stringification of a possibly-undefined query
    parameter: an absent parameter prints as the text "undefined". -/
def jsToString : Option String → String
  | some s => s
  | none => "undefined"

/-- The JS short-circuit a || b over a possibly-undefined string a:
    undefined and the empty string are falsy. -/
def jsOrElse (v : Option String) (dflt : String) : String :=
  match v with
  | some s => if s = "" then dflt else s
  | none => dflt

/-- The bound parameter of the daily branch, src/index.js:272:
    month || `${year}-01`. -/
def dailyParam (year month : Option String) : String :=
  jsOrElse month (jsToString year ++ "-01")

/-- The bound parameter of the hourly branch, src/index.js:284:
    day || `${year}-01-01`. -/
def hourlyParam (year day : Option String) : String :=
  jsOrElse day (jsToString year ++ "-01-01")

/-- Outcome of GET /api/energy/:cpe/:period: a JSON row list (HTTP 200) or
    an HTTP 400 error body. -/
inductive EnergyResult where
  | rows : List (String × ℚ) → EnergyResult
  | badRequest : String → EnergyResult
deriving DecidableEq

/-- GET /api/energy/:cpe/:period (src/index.js:242-298): the switch on
    period; the default branch answers 400 without touching the store. -/
def apiEnergy (cpe period : String) (year month day : Option String)
    (smd : List SmartMeterRow) : EnergyResult :=
  if period = "monthly" then
    .rows (monthlyQuery cpe year smd)
  else if period = "daily" then
    .rows (dailyQuery cpe (dailyParam year month) smd)
  else if period = "hourly" then
    .rows (hourlyQuery cpe (hourlyParam year day) smd)
  else
    .badRequest "Invalid period"

/-- Helper of likeMatch: does the continuation accept some suffix of the
    string (the zero-or-more-characters semantics of a LIKE `%`)? -/
def likeTail (f : List Char → Bool) : List Char → Bool
  | [] => f []
  | c :: ss => f (c :: ss) || likeTail f ss

/-- SQLite LIKE over characters with the default
    PRAGMA case_sensitive_like = OFF: `%` matches any sequence, `_`
    matches any single character, and other characters compare after the
    ASCII-only case folding SQLite applies (Char.toLower folds exactly
    the ASCII range). -/
def likeMatch : List Char → List Char → Bool
  | [], s => s.isEmpty
  | '%' :: ps, s => likeTail (likeMatch ps) s
  | '_' :: ps, s =>
    match s with
    | [] => false
    | _ :: ss => likeMatch ps ss
  | c :: ps, s =>
    match s with
    | [] => false
    | d :: ss => (c.toLower == d.toLower) && likeMatch ps ss

/-- s LIKE pat. -/
def sqlLike (pat s : String) : Bool :=
  likeMatch pat.data s.data

/-- The optionally filtered row set of GET /api/energy-breakdown
    (src/index.js:303-309): if (timestamp) adds
    timestamp LIKE `${timestamp}%`, so an absent or empty parameter
    leaves the table unfiltered, and the bound pattern is the raw user
    parameter (in which `%` and `_` stay live wildcards) followed by
    `%`. -/
def breakdownMatches (tsParam : Option String) (tbl : List BreakdownRow) :
    List BreakdownRow :=
  match tsParam with
  | some t => if t = "" then tbl else tbl.filter (fun r => sqlLike (t ++ "%") r.timestamp)
  | none => tbl

/-- The same filter on the id-less projection of the rows; the predicate
    reads only the timestamp column, so filtering commutes with dropping
    the id. -/
def breakdownMatchesCsv (tsParam : Option String) (tbl : List BreakdownCsvRow) :
    List BreakdownCsvRow :=
  match tsParam with
  | some t => if t = "" then tbl else tbl.filter (fun r => sqlLike (t ++ "%") r.timestamp)
  | none => tbl

/-- GET /api/energy-breakdown (src/index.js:300-320):
    optional LIKE filter, ORDER BY timestamp, LIMIT 24. -/
def apiEnergyBreakdown (tsParam : Option String) (tbl : List BreakdownRow) :
    List BreakdownRow :=
  (List.insertionSort tsAscRel (breakdownMatches tsParam tbl)).take 24

/-- The year filter of GET /api/buildings-energy applied to a joined row:
    strftime('%Y', smd.timestamp) = y is not satisfied by the NULL
    timestamp of a NULL-extended row. -/
def joinedYearIs (y : String) : Metadata × Option SmartMeterRow → Bool
  | (_, some r) => decide (fmtYear r.timestamp = y)
  | (_, none) => false

/-- GET /api/buildings-energy (src/index.js:322-347): left join, WHERE on
    the reading year (year || '2021' for the parameter), group by the
    metadata columns, SUM(active_energy), ORDER BY annual_energy DESC.
    Every row surviving the WHERE carries a reading, so the un-COALESCEd
    SUM coincides with joinEnergy summation. -/
def apiBuildingsEnergy (yearParam : Option String) (db : Db) :
    List (Metadata × ℚ) :=
  List.insertionSort energyDescRel
    (groupSums Prod.fst joinEnergy
      ((leftJoin db.metadata db.smart_meter_data).filter
        (joinedYearIs (jsOrElse yearParam "2021"))))

/- ------------------------------------------------------------------ -/
/- GROUP BY partition lemmas.                                          -/
/- ------------------------------------------------------------------ -/

theorem sum_map_add_split {κ : Type} (ks : List κ) (f g : κ → ℚ) :
    (ks.map (fun k => f k + g k)).sum = (ks.map f).sum + (ks.map g).sum := by
  induction ks with
  | nil => simp
  | cons a t ih => simp [ih]; ring

theorem sum_map_ite_eq_of_mem {κ : Type} [DecidableEq κ] {ks : List κ} {k0 : κ}
    (q : ℚ) (hnd : ks.Nodup) (hmem : k0 ∈ ks) :
    (ks.map (fun k => if k0 = k then q else 0)).sum = q := by
  induction ks with
  | nil => cases hmem
  | cons a t ih =>
    rcases List.mem_cons.mp hmem with h | h
    · subst h
      have hnotin : k0 ∉ t := (List.nodup_cons.mp hnd).1
      have hz : ((t.map (fun k => if k0 = k then q else 0))).sum = 0 := by
        apply List.sum_eq_zero
        intro x hx
        rcases List.mem_map.mp hx with ⟨k, hk, hkx⟩
        have : k0 ≠ k := fun hkk => hnotin (hkk ▸ hk)
        simp [this] at hkx
        exact hkx.symm
      simp [hz]
    · have hne : k0 ≠ a := by
        intro he
        exact (List.nodup_cons.mp hnd).1 (he ▸ h)
      have := ih (List.nodup_cons.mp hnd).2 h
      simp [hne, this]

theorem groupSums_partition_aux {α κ : Type} [DecidableEq κ]
    (key : α → κ) (val : α → ℚ) (l : List α) (ks : List κ)
    (hnd : ks.Nodup) (hcov : ∀ x ∈ l, key x ∈ ks) :
    (ks.map (fun k => ((l.filter (fun x => decide (key x = k))).map val).sum)).sum
      = (l.map val).sum := by
  induction l with
  | nil => simp
  | cons a t ih =>
    have hstep : ∀ k,
        (((a :: t).filter (fun x => decide (key x = k))).map val).sum
          = (if key a = k then val a else 0)
            + ((t.filter (fun x => decide (key x = k))).map val).sum := by
      intro k
      by_cases h : key a = k <;> simp [List.filter_cons, h]
    simp only [hstep]
    rw [sum_map_add_split]
    rw [sum_map_ite_eq_of_mem (val a) hnd (hcov a (List.mem_cons_self a t))]
    rw [ih (fun x hx => hcov x (List.mem_cons_of_mem a hx))]
    simp

theorem groupSums_snd_sum {α κ : Type} [DecidableEq κ]
    (key : α → κ) (val : α → ℚ) (l : List α) :
    ((groupSums key val l).map Prod.snd).sum = (l.map val).sum := by
  unfold groupSums
  rw [List.map_map]
  exact groupSums_partition_aux key val l ((l.map key).dedup)
    (List.nodup_dedup _)
    (fun x hx => List.mem_dedup.mpr (List.mem_map_of_mem key hx))

theorem map_fst_map_pair {κ : Type} (ks : List κ) (g : κ → ℚ) :
    (ks.map (fun k => (k, g k))).map Prod.fst = ks := by
  induction ks with
  | nil => simp
  | cons a t ih => simp [ih]

theorem groupSums_fst {α κ : Type} [DecidableEq κ]
    (key : α → κ) (val : α → ℚ) (l : List α) :
    (groupSums key val l).map Prod.fst = (l.map key).dedup := by
  unfold groupSums
  exact map_fst_map_pair _ _

theorem insertionSort_map_sum {α : Type} (r : α → α → Prop) [DecidableRel r]
    (f : α → ℚ) (l : List α) :
    ((List.insertionSort r l).map f).sum = (l.map f).sum :=
  ((List.perm_insertionSort r l).map f).sum_eq

/- ------------------------------------------------------------------ -/
/- INSERT OR REPLACE metadata-load lemmas.                             -/
/- ------------------------------------------------------------------ -/

theorem mem_upsertMetadata {tbl : List Metadata} {m x : Metadata}
    (h : x ∈ upsertMetadata tbl m) : x ∈ tbl ∨ x = m := by
  unfold upsertMetadata at h
  split at h
  · rcases List.mem_map.mp h with ⟨y, hy, hyx⟩
    by_cases hc : y.cpe = m.cpe
    · simp only [hc, if_true] at hyx
      exact Or.inr hyx.symm
    · simp only [hc, if_false] at hyx
      exact Or.inl (hyx ▸ hy)
  · rcases List.mem_append.mp h with h1 | h1
    · exact Or.inl h1
    · exact Or.inr (List.mem_singleton.mp h1)

theorem cpe_mem_upsertMetadata_self (tbl : List Metadata) (m : Metadata) :
    m.cpe ∈ (upsertMetadata tbl m).map (fun x => x.cpe) := by
  unfold upsertMetadata
  split
  · next hany =>
    rcases List.any_eq_true.mp hany with ⟨y, hy, hyc⟩
    have hyc2 : y.cpe = m.cpe := of_decide_eq_true hyc
    exact List.mem_map.mpr ⟨m, List.mem_map.mpr ⟨y, hy, by simp [hyc2]⟩, rfl⟩
  · exact List.mem_map.mpr ⟨m, List.mem_append.mpr (Or.inr (List.mem_singleton.mpr rfl)), rfl⟩

theorem cpe_mem_upsertMetadata_mono {tbl : List Metadata} {c : String} (m : Metadata)
    (h : c ∈ tbl.map (fun x => x.cpe)) :
    c ∈ (upsertMetadata tbl m).map (fun x => x.cpe) := by
  unfold upsertMetadata
  rcases List.mem_map.mp h with ⟨y, hy, hyc⟩
  split
  · by_cases hc : y.cpe = m.cpe
    · exact List.mem_map.mpr ⟨m, List.mem_map.mpr ⟨y, hy, by simp [hc]⟩, by rw [← hyc, hc]⟩
    · exact List.mem_map.mpr ⟨y, List.mem_map.mpr ⟨y, hy, by simp [hc]⟩, hyc⟩
  · exact List.mem_map.mpr ⟨y, List.mem_append.mpr (Or.inl hy), hyc⟩

theorem loadMetadata_foldl_mem :
    ∀ (rows : List MetaRow) (acc : List Metadata) (x : Metadata),
    x ∈ rows.foldl
      (fun tbl r => if validMetaRow r then upsertMetadata tbl (mkMetadata r) else tbl) acc →
    x ∈ acc ∨ ∃ r ∈ rows, validMetaRow r = true ∧ x = mkMetadata r := by
  intro rows
  induction rows with
  | nil =>
    intro acc x h
    exact Or.inl h
  | cons r t ih =>
    intro acc x h
    rw [List.foldl_cons] at h
    rcases ih _ x h with h1 | ⟨s, hs, hv, hx⟩
    · by_cases hv : validMetaRow r
      · simp only [hv, if_true] at h1
        rcases mem_upsertMetadata h1 with h2 | h2
        · exact Or.inl h2
        · exact Or.inr ⟨r, List.mem_cons_self r t, hv, h2⟩
      · simp only [hv, if_false] at h1
        exact Or.inl h1
    · exact Or.inr ⟨s, List.mem_cons_of_mem r hs, hv, hx⟩

theorem loadMetadata_keys_mono :
    ∀ (rows : List MetaRow) (acc : List Metadata) (c : String),
    c ∈ acc.map (fun x => x.cpe) →
    c ∈ (rows.foldl
      (fun tbl r => if validMetaRow r then upsertMetadata tbl (mkMetadata r) else tbl)
      acc).map (fun x => x.cpe) := by
  intro rows
  induction rows with
  | nil =>
    intro acc c h
    exact h
  | cons r t ih =>
    intro acc c h
    rw [List.foldl_cons]
    apply ih
    by_cases hv : validMetaRow r
    · simp only [hv, if_true]
      exact cpe_mem_upsertMetadata_mono _ h
    · simp only [hv, if_false]
      exact h

theorem loadMetadata_key_present :
    ∀ (rows : List MetaRow) (acc : List Metadata) (r : MetaRow),
    r ∈ rows → validMetaRow r = true →
    jsTrim r.cpe ∈ (rows.foldl
      (fun tbl r => if validMetaRow r then upsertMetadata tbl (mkMetadata r) else tbl)
      acc).map (fun x => x.cpe) := by
  intro rows
  induction rows with
  | nil =>
    intro acc r hr
    cases hr
  | cons r0 t ih =>
    intro acc r hr hv
    rw [List.foldl_cons]
    rcases List.mem_cons.mp hr with h | h
    · subst h
      apply loadMetadata_keys_mono
      simp only [hv, if_true]
      exact cpe_mem_upsertMetadata_self acc (mkMetadata r)
    · exact ih _ r h hv

/- ------------------------------------------------------------------ -/
/- Concrete sample rows used by witnesses and counterexamples.         -/
/- ------------------------------------------------------------------ -/

/-- A smart-meter CSV row whose cpe field is empty (JS-falsy). -/
def badMeterRow : SmartMeterRow :=
  ⟨"", "2021-01-01T00:00:00", 0⟩

/-- A well-formed smart-meter CSV row. -/
def goodMeterRow : SmartMeterRow :=
  ⟨"B1", "2021-03-01T00:00:00", 5⟩

/-- A smart-meter CSV row whose cpe is whitespace only: JS-truthy, but
    empty after trimming. -/
def wsMeterRow : SmartMeterRow :=
  ⟨" ", "2021-03-01T00:00:00", 5⟩

/-- A valid metadata CSV row (cpe carries surrounding whitespace the
    loader trims away). -/
def goodMetaRow : MetaRow :=
  ⟨"B1 ", some 40, some (-73), some 1000, "A", "1 Main St"⟩

/-- A metadata CSV row with an empty cpe field. -/
def badMetaRow : MetaRow :=
  ⟨"", some 41, some (-73), some 900, "B", "2 Main St"⟩

/- ------------------------------------------------------------------ -/
/- C2: monthly buckets partition the year.                             -/
/- ------------------------------------------------------------------ -/

/-- C2: for every building code and every year, the monthly bucket totals
    returned by the monthly branch of GET /api/energy/:cpe/:period sum to
    the sum of active_energy over exactly the raw readings of that building
    whose timestamp falls in that year, and the emitted calendar-month
    buckets are pairwise distinct (no reading is lost or duplicated). -/
theorem monthly_buckets_partition_year (cpe y : String) (smd : List SmartMeterRow) :
    ((monthlyQuery cpe (some y) smd).map Prod.snd).sum
      = ((smd.filter (fun r => decide (r.cpe = cpe ∧ fmtYear r.timestamp = y))).map
          (fun r => r.active_energy)).sum
    ∧ ((monthlyQuery cpe (some y) smd).map Prod.fst).Nodup := by
  have hfil : (fun (r : SmartMeterRow) => decide (r.cpe = cpe ∧ fmtYear r.timestamp = y))
      = (fun r => decide (r.cpe = cpe) && yearFilter (some y) r.timestamp) := by
    funext r
    by_cases h1 : r.cpe = cpe <;> by_cases h2 : fmtYear r.timestamp = y <;>
      simp [yearFilter, h1, h2]
  constructor
  · rw [hfil]
    unfold monthlyQuery
    rw [insertionSort_map_sum]
    exact groupSums_snd_sum _ _ _
  · have hperm : ((monthlyQuery cpe (some y) smd).map Prod.fst).Perm
        ((groupSums (fun r => fmtYearMonth r.timestamp) (fun r => r.active_energy)
          (smd.filter (fun r => decide (r.cpe = cpe) && yearFilter (some y) r.timestamp))).map
            Prod.fst) :=
      (List.perm_insertionSort bucketAscRel _).map Prod.fst
    rw [hperm.nodup_iff, groupSums_fst]
    exact List.nodup_dedup _

/- ------------------------------------------------------------------ -/
/- C3: the 10,000-row cap of the smart-meter load.                     -/
/- ------------------------------------------------------------------ -/

/-- C3 counterexample: a source of 10,001 rows, all with an empty cpe
    field, has more rows than the cap, yet the load persists 0 rows, not
    10,000 — the cap counts only rows passing the row.cpe truthiness
    guard, so the claim as stated fails on sources containing invalid
    rows. -/
theorem meter_cap_counterexample :
    10000 < (List.replicate 10001 badMeterRow).length
    ∧ (loadSmartMeter (List.replicate 10001 badMeterRow)).length ≠ 10000 := by
  have hbad : smValid badMeterRow = false := by decide
  have h := loadSmartMeter_eq (List.replicate 10001 badMeterRow)
  rw [filter_replicate_of_false hbad] at h
  constructor
  · rw [List.length_replicate]
    omega
  · rw [h]
    simp

/-- C3 amended: for every meter-reading source with more than 10,000 rows
    whose cpe field is non-empty (JS-truthy), the load persists exactly
    10,000 rows, and they are the first 10,000 such valid rows in source
    order; all further rows are silently not ingested. -/
theorem meter_cap_first_valid_rows (rows : List SmartMeterRow)
    (h : 10000 < (rows.filter smValid).length) :
    loadSmartMeter rows = (rows.filter smValid).take 10000
    ∧ (loadSmartMeter rows).length = 10000 := by
  refine ⟨loadSmartMeter_eq rows, ?_⟩
  rw [loadSmartMeter_eq, List.length_take]
  omega

/-- Witness for C3 amended at a concrete 10,001-row all-valid source. -/
theorem meter_cap_first_valid_rows_witness :
    loadSmartMeter (List.replicate 10001 goodMeterRow)
      = ((List.replicate 10001 goodMeterRow).filter smValid).take 10000
    ∧ (loadSmartMeter (List.replicate 10001 goodMeterRow)).length = 10000 :=
  meter_cap_first_valid_rows _ (by
    rw [filter_replicate_of_true (by decide : smValid goodMeterRow = true),
      List.length_replicate]
    omega)

/- ------------------------------------------------------------------ -/
/- C4: rejection of empty building codes in the smart-meter load.      -/
/- ------------------------------------------------------------------ -/

/-- C4 counterexample: a row whose cpe is a single space is empty after
    trimming, yet the load persists it verbatim — the guard at
    src/index.js:156 tests row.cpe truthiness without trimming. -/
theorem meter_whitespace_cpe_counterexample :
    loadSmartMeter [wsMeterRow] = [wsMeterRow] ∧ jsTrim wsMeterRow.cpe = "" := by
  constructor
  · rfl
  · decide

/-- C4 amended: the smart-meter load rejects exactly the rows whose cpe
    field is the empty string (JS-falsy); every persisted row has a
    non-empty cpe, but whitespace-only codes pass the guard and are
    persisted untrimmed. -/
theorem meter_load_persists_only_truthy_cpe (rows : List SmartMeterRow) :
    ∀ rd ∈ loadSmartMeter rows, rd.cpe ≠ "" := by
  intro rd hrd
  rw [loadSmartMeter_eq] at hrd
  have h1 : rd ∈ rows.filter smValid := List.take_subset _ _ hrd
  have h2 := (List.mem_filter.mp h1).2
  simpa [smValid] using h2

/-- Witness for C4 amended at a concrete one-row source. -/
theorem meter_load_persists_only_truthy_cpe_witness : goodMeterRow.cpe ≠ "" :=
  meter_load_persists_only_truthy_cpe [goodMeterRow] goodMeterRow (List.Mem.head _)

/- ------------------------------------------------------------------ -/
/- C5: metadata load drops empty-cpe rows, keeps the rest.             -/
/- ------------------------------------------------------------------ -/

/-- C5: every row of the metadata relation stems from a source row that
    passed the non-empty-after-trim guard and carries that row's trimmed,
    non-empty cpe (rows failing the guard are never stored); and every
    source row passing the guard still has its trimmed cpe present in the
    relation (a bad row aborts nothing). -/
theorem metadata_load_drops_empty_cpe (rows : List MetaRow) :
    (∀ m ∈ loadMetadata rows,
      m.cpe ≠ "" ∧ ∃ r ∈ rows, validMetaRow r = true ∧ m = mkMetadata r)
    ∧ (∀ r ∈ rows, validMetaRow r = true →
        jsTrim r.cpe ∈ (loadMetadata rows).map (fun x => x.cpe)) := by
  constructor
  · intro m hm
    rcases loadMetadata_foldl_mem rows [] m hm with h | ⟨r, hr, hv, hmr⟩
    · cases h
    · refine ⟨?_, r, hr, hv, hmr⟩
      have h2 : jsTrim r.cpe ≠ "" := by
        have hv2 := hv
        unfold validMetaRow at hv2
        rw [Bool.and_eq_true] at hv2
        exact of_decide_eq_true hv2.2
      rw [hmr]
      exact h2
  · intro r hr hv
    exact loadMetadata_key_present rows [] r hr hv

/-- Witness for C5 at the spec's own two-row example source (one valid
    row, one empty-cpe row). -/
theorem metadata_load_drops_empty_cpe_witness :
    jsTrim goodMetaRow.cpe ∈ (loadMetadata [goodMetaRow, badMetaRow]).map (fun x => x.cpe) :=
  (metadata_load_drops_empty_cpe [goodMetaRow, badMetaRow]).2 goodMetaRow
    (List.Mem.head _) (by decide)

/- ------------------------------------------------------------------ -/
/- C6: unrecognized period values answer 400 without a query.          -/
/- ------------------------------------------------------------------ -/

/-- C6: for every request whose period is none of monthly, daily, hourly,
    GET /api/energy/:cpe/:period answers 400 with the "Invalid period"
    error body, and the outcome does not depend on the store (no
    aggregation query is executed). -/
theorem invalid_period_bad_request (cpe period : String)
    (year month day : Option String) (smd : List SmartMeterRow)
    (h1 : period ≠ "monthly") (h2 : period ≠ "daily") (h3 : period ≠ "hourly") :
    apiEnergy cpe period year month day smd = .badRequest "Invalid period"
    ∧ ∀ smd2, apiEnergy cpe period year month day smd
        = apiEnergy cpe period year month day smd2 := by
  have hmain : ∀ s : List SmartMeterRow,
      apiEnergy cpe period year month day s = .badRequest "Invalid period" := by
    intro s
    simp [apiEnergy, h1, h2, h3]
  exact ⟨hmain smd, fun smd2 => (hmain smd).trans (hmain smd2).symm⟩

/-- Witness for C6 at the concrete period "weekly". -/
theorem invalid_period_bad_request_witness :
    apiEnergy "B1" "weekly" none none none [] = .badRequest "Invalid period" :=
  (invalid_period_bad_request "B1" "weekly" none none none []
    (by decide) (by decide) (by decide)).1

/- ------------------------------------------------------------------ -/
/- C8: missing required parameters are NOT rejected (code bug).        -/
/- ------------------------------------------------------------------ -/

/-- C8: the code does not reject a recognized period whose required query
    parameters are missing; instead the daily and hourly branches
    substitute the literal text "undefined" into the bound filter and the
    monthly branch binds NULL, each answering 200 with an empty row list
    instead of a client error — the code contradicts the spec's explicit
    requirement to validate and reject. -/
theorem missing_params_substituted_not_rejected :
    dailyParam none none = "undefined-01"
    ∧ hourlyParam none none = "undefined-01-01"
    ∧ apiEnergy "B1" "daily" none none none [goodMeterRow] = .rows []
    ∧ apiEnergy "B1" "monthly" none none none [goodMeterRow] = .rows []
    ∧ apiEnergy "B1" "hourly" none none none [goodMeterRow] = .rows [] := by
  exact ⟨rfl, rfl, rfl, rfl, rfl⟩

/- ------------------------------------------------------------------ -/
/- C9: double ingestion — identical up to AUTOINCREMENT ids.           -/
/- ------------------------------------------------------------------ -/

theorem loadBreakdownGo_stripId (rows : List BreakdownCsvRow) :
    ∀ i j c, (loadBreakdownGo i c rows).map stripId
      = (loadBreakdownGo j c rows).map stripId := by
  induction rows with
  | nil => intro i j c; rfl
  | cons r t ih =>
    intro i j c
    by_cases hc : c < 1000
    · have hrec := ih (i + 1) (j + 1) (c + 1)
      simp [loadBreakdownGo, hc, hrec, stripId, mkBreakdownRow]
    · simp [loadBreakdownGo, hc, ih i j c]

theorem breakdownMatches_map_stripId (tsParam : Option String)
    (tbl : List BreakdownRow) :
    (breakdownMatches tsParam tbl).map stripId
      = breakdownMatchesCsv tsParam (tbl.map stripId) := by
  cases tsParam with
  | none => rfl
  | some t =>
    by_cases ht : t = ""
    · simp [breakdownMatches, breakdownMatchesCsv, ht]
    · simp only [breakdownMatches, breakdownMatchesCsv, if_neg ht]
      rw [List.filter_map]
      rfl

theorem apiEnergyBreakdown_map_stripId (tsParam : Option String)
    (tbl : List BreakdownRow) :
    (apiEnergyBreakdown tsParam tbl).map stripId
      = (List.insertionSort csvTsAscRel
          (breakdownMatchesCsv tsParam (tbl.map stripId))).take 24 := by
  unfold apiEnergyBreakdown
  rw [List.map_take]
  rw [List.map_insertionSort tsAscRel csvTsAscRel stripId _ (fun a _ b _ => Iff.rfl)]
  rw [breakdownMatches_map_stripId]

/-- The CSV row of the double-ingestion counterexample. -/
def exBreakdownCsvRow : BreakdownCsvRow :=
  ⟨"2021-06-15T04:00:00", 0, 0, 0, 0, 0, 0, 0, 0, 0, 0, 0, 0, 0, 0⟩

/-- Sources consisting of a one-row breakdown CSV only. -/
def exSources : Sources :=
  ⟨none, none, some [exBreakdownCsvRow]⟩

/-- The store before the first ingestion run. -/
def exEmptyDb : Db :=
  ⟨[], [], [], 0⟩

/-- C9 counterexample: DELETE FROM does not reset sqlite_sequence, so the
    second ingestion run stores the same breakdown row under
    AUTOINCREMENT id 2 instead of 1, and GET /api/energy-breakdown —
    whose SELECT * returns the id column — answers differently after the
    second run: query results are NOT identical across runs. -/
theorem ingestion_breakdown_ids_counterexample :
    ((apiEnergyBreakdown none
        (loadCSVData exSources (loadCSVData exSources exEmptyDb)).energy_breakdown).map
      (fun r => r.id)) = [2]
    ∧ ((apiEnergyBreakdown none
        (loadCSVData exSources exEmptyDb).energy_breakdown).map (fun r => r.id)) = [1]
    ∧ apiEnergyBreakdown none
        (loadCSVData exSources (loadCSVData exSources exEmptyDb)).energy_breakdown
      ≠ apiEnergyBreakdown none (loadCSVData exSources exEmptyDb).energy_breakdown :=
  ⟨rfl, rfl, fun h =>
    absurd (congrArg (List.map (fun r : BreakdownRow => r.id)) h) (by decide)⟩

/-- C9 amended: running the full-refresh ingestion twice on identical
    sources reproduces the metadata and smart-meter relations exactly, so
    GET /api/buildings, /api/energy and /api/buildings-energy return
    identical results; the breakdown relation is reproduced identically
    except for the AUTOINCREMENT surrogate ids (DELETE FROM does not
    reset sqlite_sequence), so GET /api/energy-breakdown returns the same
    rows once the id column is projected away. -/
theorem ingestion_idempotent_up_to_ids (s : Sources) (db : Db) :
    (loadCSVData s (loadCSVData s db)).metadata = (loadCSVData s db).metadata
    ∧ (loadCSVData s (loadCSVData s db)).smart_meter_data
        = (loadCSVData s db).smart_meter_data
    ∧ apiBuildings (loadCSVData s (loadCSVData s db)) = apiBuildings (loadCSVData s db)
    ∧ (∀ cpe period year month day,
        apiEnergy cpe period year month day
            (loadCSVData s (loadCSVData s db)).smart_meter_data
          = apiEnergy cpe period year month day (loadCSVData s db).smart_meter_data)
    ∧ (∀ yearParam,
        apiBuildingsEnergy yearParam (loadCSVData s (loadCSVData s db))
          = apiBuildingsEnergy yearParam (loadCSVData s db))
    ∧ (∀ tsParam,
        (apiEnergyBreakdown tsParam
            (loadCSVData s (loadCSVData s db)).energy_breakdown).map stripId
          = (apiEnergyBreakdown tsParam
              (loadCSVData s db).energy_breakdown).map stripId) := by
  have hstrip : (loadCSVData s (loadCSVData s db)).energy_breakdown.map stripId
      = (loadCSVData s db).energy_breakdown.map stripId := by
    cases hsb : s.breakdownCsv with
    | none => simp [loadCSVData, hsb]
    | some rows =>
      simp only [loadCSVData, hsb, loadEnergyBreakdown]
      exact loadBreakdownGo_stripId rows _ _ 0
  refine ⟨rfl, rfl, rfl, fun _ _ _ _ _ => rfl, fun _ => rfl, ?_⟩
  intro tsParam
  rw [apiEnergyBreakdown_map_stripId, apiEnergyBreakdown_map_stripId, hstrip]

/- ------------------------------------------------------------------ -/
/- Left-join lemmas.                                                   -/
/- ------------------------------------------------------------------ -/

/-- COALESCE(SUM(active_energy), 0) for one building over the whole
    readings table: the per-building total of GET /api/buildings. -/
def annualEnergy (m : Metadata) (smd : List SmartMeterRow) : ℚ :=
  ((smd.filter (fun r => decide (r.cpe = m.cpe))).map (fun r => r.active_energy)).sum

theorem mem_joinBlock_fst {m : Metadata} {smd : List SmartMeterRow}
    {p : Metadata × Option SmartMeterRow} (h : p ∈ joinBlock m smd) : p.1 = m := by
  unfold joinBlock at h
  split at h
  · rw [List.mem_singleton] at h
    rw [h]
  · rcases List.mem_map.mp h with ⟨r, _, hrp⟩
    rw [← hrp]

theorem mem_joinBlock_snd {m : Metadata} {smd : List SmartMeterRow}
    {p : Metadata × Option SmartMeterRow} (h : p ∈ joinBlock m smd) :
    p.2 = none ∨ ∃ r ∈ smd, p.2 = some r ∧ r.cpe = m.cpe := by
  unfold joinBlock at h
  split at h
  · rw [List.mem_singleton] at h
    rw [h]
    exact Or.inl rfl
  · rcases List.mem_map.mp h with ⟨r, hr, hrp⟩
    have h1 := List.mem_filter.mp hr
    exact Or.inr ⟨r, h1.1, by rw [← hrp], of_decide_eq_true h1.2⟩

theorem joinBlock_ne_nil (m : Metadata) (smd : List SmartMeterRow) :
    joinBlock m smd ≠ [] := by
  unfold joinBlock
  split
  · exact List.cons_ne_nil _ _
  · next h =>
    intro hc
    rw [List.map_eq_nil_iff] at hc
    rw [hc] at h
    simp at h

theorem fst_mem_of_mem_leftJoin {meta : List Metadata} {smd : List SmartMeterRow}
    {p : Metadata × Option SmartMeterRow} (h : p ∈ leftJoin meta smd) : p.1 ∈ meta := by
  unfold leftJoin at h
  rcases List.mem_flatMap.mp h with ⟨m, hm, hp⟩
  rw [mem_joinBlock_fst hp]
  exact hm

theorem mem_leftJoin_snd {meta : List Metadata} {smd : List SmartMeterRow}
    {p : Metadata × Option SmartMeterRow} (hp : p ∈ leftJoin meta smd) :
    p.2 = none ∨ ∃ r ∈ smd, p.2 = some r ∧ r.cpe = p.1.cpe := by
  unfold leftJoin at hp
  rcases List.mem_flatMap.mp hp with ⟨m2, _, hpb⟩
  have hf := mem_joinBlock_fst hpb
  rcases mem_joinBlock_snd hpb with h0 | ⟨r, hr, hpr, hrc⟩
  · exact Or.inl h0
  · exact Or.inr ⟨r, hr, hpr, by rw [hf]; exact hrc⟩

theorem exists_mem_leftJoin_fst {meta : List Metadata} (smd : List SmartMeterRow)
    {m : Metadata} (hm : m ∈ meta) : ∃ p ∈ leftJoin meta smd, p.1 = m := by
  obtain ⟨p, hp⟩ := List.exists_mem_of_ne_nil _ (joinBlock_ne_nil m smd)
  exact ⟨p, List.mem_flatMap.mpr ⟨m, hm, hp⟩, mem_joinBlock_fst hp⟩

theorem filter_joinBlock_self (m : Metadata) (smd : List SmartMeterRow) :
    (joinBlock m smd).filter (fun p => decide (p.1 = m)) = joinBlock m smd := by
  rw [List.filter_eq_self]
  intro p hp
  exact decide_eq_true (mem_joinBlock_fst hp)

theorem filter_joinBlock_other {m m2 : Metadata} (hne : m2 ≠ m)
    (smd : List SmartMeterRow) :
    (joinBlock m2 smd).filter (fun p => decide (p.1 = m)) = [] := by
  rw [List.filter_eq_nil_iff]
  intro p hp
  rw [mem_joinBlock_fst hp]
  simp [hne]

theorem filter_leftJoin_not_mem {meta : List Metadata} {smd : List SmartMeterRow}
    {m : Metadata} (hm : m ∉ meta) :
    (leftJoin meta smd).filter (fun p => decide (p.1 = m)) = [] := by
  rw [List.filter_eq_nil_iff]
  intro p hp
  have := fst_mem_of_mem_leftJoin hp
  intro hd
  have hpm : p.1 = m := of_decide_eq_true hd
  exact hm (hpm ▸ this)

theorem filter_leftJoin_eq {meta : List Metadata} {smd : List SmartMeterRow}
    {m : Metadata} (hnd : meta.Nodup) (hm : m ∈ meta) :
    (leftJoin meta smd).filter (fun p => decide (p.1 = m)) = joinBlock m smd := by
  induction meta with
  | nil => cases hm
  | cons m0 t ih =>
    have hsplit : leftJoin (m0 :: t) smd = joinBlock m0 smd ++ leftJoin t smd := by
      unfold leftJoin
      rw [List.flatMap_cons]
    rw [hsplit, List.filter_append]
    rcases List.mem_cons.mp hm with he | ht
    · subst he
      rw [filter_joinBlock_self, filter_leftJoin_not_mem (List.nodup_cons.mp hnd).1]
      simp
    · have hne : m0 ≠ m := fun he => (List.nodup_cons.mp hnd).1 (he ▸ ht)
      rw [filter_joinBlock_other hne, ih (List.nodup_cons.mp hnd).2 ht]
      simp

theorem joinBlock_energy_sum (m : Metadata) (smd : List SmartMeterRow) :
    ((joinBlock m smd).map joinEnergy).sum = annualEnergy m smd := by
  unfold joinBlock annualEnergy
  split
  · next h =>
    rw [List.isEmpty_iff] at h
    rw [h]
    simp [joinEnergy]
  · rw [List.map_map]
    have hcomp : (joinEnergy ∘ fun r : SmartMeterRow => (m, some r))
        = fun r : SmartMeterRow => r.active_energy := rfl
    rw [hcomp]

theorem leftJoin_keys_perm {meta : List Metadata} (smd : List SmartMeterRow)
    (hnd : meta.Nodup) :
    (((leftJoin meta smd).map Prod.fst).dedup).Perm meta := by
  apply List.perm_of_nodup_nodup_toFinset_eq (List.nodup_dedup _) hnd
  ext m
  simp only [List.mem_toFinset, List.mem_dedup]
  constructor
  · intro h
    rcases List.mem_map.mp h with ⟨p, hp, hpm⟩
    rw [← hpm]
    exact fst_mem_of_mem_leftJoin hp
  · intro hm
    rcases exists_mem_leftJoin_fst smd hm with ⟨p, hp, hpm⟩
    exact List.mem_map.mpr ⟨p, hp, hpm⟩

theorem apiBuildings_perm {db : Db} (hnd : db.metadata.Nodup) :
    (apiBuildings db).Perm
      (db.metadata.map (fun m => (m, annualEnergy m db.smart_meter_data))) := by
  unfold apiBuildings
  refine (List.perm_insertionSort energyDescRel _).trans ?_
  unfold groupSums
  have hmap : ((((leftJoin db.metadata db.smart_meter_data).map Prod.fst).dedup).map
      (fun k => (k, (((leftJoin db.metadata db.smart_meter_data).filter
        (fun x => decide (Prod.fst x = k))).map joinEnergy).sum)))
      = (((leftJoin db.metadata db.smart_meter_data).map Prod.fst).dedup).map
        (fun m => (m, annualEnergy m db.smart_meter_data)) := by
    apply List.map_congr_left
    intro k hk
    have hkm : k ∈ db.metadata := by
      rcases List.mem_map.mp (List.mem_dedup.mp hk) with ⟨p, hp, hpk⟩
      rw [← hpk]
      exact fst_mem_of_mem_leftJoin hp
    rw [filter_leftJoin_eq hnd hkm, joinBlock_energy_sum]
  rw [hmap]
  exact (leftJoin_keys_perm _ hnd).map _

theorem countP_eq_one_of_nodup_map {α β : Type} [DecidableEq β] {f : α → β}
    {l : List α} (hnd : (l.map f).Nodup) {a : α} (ha : a ∈ l) :
    l.countP (fun x => decide (f x = f a)) = 1 := by
  induction l with
  | nil => cases ha
  | cons x t ih =>
    have hx : f x ∉ t.map f := by
      intro hc
      rw [List.map_cons] at hnd
      exact (List.nodup_cons.mp hnd).1 hc
    rcases List.mem_cons.mp ha with h | h
    · rw [h]
      have hz : t.countP (fun y => decide (f y = f x)) = 0 := by
        rw [List.countP_eq_zero]
        intro y hy
        simp only [decide_eq_true_eq]
        intro he
        exact hx (he ▸ List.mem_map_of_mem f hy)
      rw [List.countP_cons, hz]
      simp
    · have hne : f x ≠ f a := by
        intro he
        exact hx (he ▸ List.mem_map_of_mem f h)
      have hnd2 : (t.map f).Nodup := by
        rw [List.map_cons] at hnd
        exact (List.nodup_cons.mp hnd).2
      rw [List.countP_cons, ih hnd2 h]
      simp [hne]

/- ------------------------------------------------------------------ -/
/- C1: GET /api/buildings — outer join, one row per building, sorted.  -/
/- ------------------------------------------------------------------ -/

/-- C1: under the cpe PRIMARY KEY invariant of the metadata relation,
    GET /api/buildings returns exactly one entry per metadata row, a
    building with no matching readings appears with annual_energy = 0
    (the join is outer), and the result is sorted descending by
    annual_energy. -/
theorem buildings_outer_join_sorted (db : Db)
    (hnd : (db.metadata.map (fun m => m.cpe)).Nodup) :
    (∀ m ∈ db.metadata,
      (apiBuildings db).countP (fun e => decide (e.1.cpe = m.cpe)) = 1)
    ∧ (∀ m ∈ db.metadata, (∀ r ∈ db.smart_meter_data, r.cpe ≠ m.cpe) →
        (m, (0 : ℚ)) ∈ apiBuildings db)
    ∧ List.Sorted energyDescRel (apiBuildings db) := by
  have hmetand : db.metadata.Nodup := List.Nodup.of_map _ hnd
  have hperm := apiBuildings_perm hmetand
  refine ⟨?_, ?_, ?_⟩
  · intro m hm
    rw [hperm.countP_eq, List.countP_map]
    have hcomp : ((fun e : Metadata × ℚ => decide (e.1.cpe = m.cpe)) ∘
        (fun m2 => (m2, annualEnergy m2 db.smart_meter_data)))
        = fun m2 : Metadata => decide (m2.cpe = m.cpe) := rfl
    rw [hcomp]
    exact countP_eq_one_of_nodup_map hnd hm
  · intro m hm hnone
    have hz : annualEnergy m db.smart_meter_data = 0 := by
      unfold annualEnergy
      have hfil : db.smart_meter_data.filter (fun r => decide (r.cpe = m.cpe)) = [] := by
        rw [List.filter_eq_nil_iff]
        intro r hr
        simp [hnone r hr]
      rw [hfil]
      simp
    have hmm : (m, (0 : ℚ)) ∈ db.metadata.map
        (fun m2 => (m2, annualEnergy m2 db.smart_meter_data)) := by
      refine List.mem_map.mpr ⟨m, hm, ?_⟩
      rw [hz]
    exact hperm.mem_iff.mpr hmm
  · exact List.sorted_insertionSort energyDescRel _

/-- A metadata record with key B1. -/
def exMetaA : Metadata :=
  ⟨"B1", some 40, some (-73), some 1000, "A", "1 Main St"⟩

/-- A metadata record with key B2. -/
def exMetaB : Metadata :=
  ⟨"B2", some 41, some (-73), some 900, "B", "2 Main St"⟩

/-- A two-building store with no readings at all. -/
def exDbNoReadings : Db :=
  ⟨[exMetaA, exMetaB], [], [], 0⟩

/-- Witness for C1: in a store with two buildings and no readings, B1
    appears with annual_energy 0. -/
theorem buildings_outer_join_sorted_witness :
    (exMetaA, (0 : ℚ)) ∈ apiBuildings exDbNoReadings :=
  (buildings_outer_join_sorted exDbNoReadings (by decide)).2.1 exMetaA
    (List.Mem.head _) (fun r hr => absurd hr (List.not_mem_nil r))

/- ------------------------------------------------------------------ -/
/- C10: GET /api/buildings-energy behaves as an inner join.            -/
/- ------------------------------------------------------------------ -/

/-- C10: a building in the metadata relation with no reading in the
    requested year is absent from the GET /api/buildings-energy result:
    the WHERE clause on strftime('%Y', smd.timestamp) eliminates the
    NULL-extended rows of the left join, so the endpoint behaves as an
    inner join (unlike GET /api/buildings). -/
theorem buildings_energy_inner_join (db : Db) (y : String) (m : Metadata)
    (hy : y ≠ "") (_hm : m ∈ db.metadata)
    (h : ∀ r ∈ db.smart_meter_data, ¬(r.cpe = m.cpe ∧ fmtYear r.timestamp = y)) :
    m.cpe ∉ (apiBuildingsEnergy (some y) db).map (fun e => e.1.cpe) := by
  intro hmem
  rcases List.mem_map.mp hmem with ⟨e, he, hec⟩
  have he2 : e ∈ groupSums Prod.fst joinEnergy
      ((leftJoin db.metadata db.smart_meter_data).filter
        (joinedYearIs (jsOrElse (some y) "2021"))) :=
    (List.perm_insertionSort energyDescRel _).mem_iff.mp he
  unfold groupSums at he2
  rcases List.mem_map.mp he2 with ⟨k, hk, hke⟩
  have hkfst : e.1 = k := by rw [← hke]
  have hk2 : k ∈ ((leftJoin db.metadata db.smart_meter_data).filter
      (joinedYearIs (jsOrElse (some y) "2021"))).map Prod.fst := List.mem_dedup.mp hk
  rcases List.mem_map.mp hk2 with ⟨p, hp, hpk⟩
  have hpf := List.mem_filter.mp hp
  have hyeff : jsOrElse (some y) "2021" = y := by simp [jsOrElse, hy]
  rcases mem_leftJoin_snd hpf.1 with h0 | ⟨r, hr, hpr, hrc⟩
  · have hfalse := hpf.2
    obtain ⟨pm, po⟩ := p
    simp only at h0
    rw [h0] at hfalse
    simp [joinedYearIs] at hfalse
  · have hyear : fmtYear r.timestamp = y := by
      have hfy := hpf.2
      obtain ⟨pm, po⟩ := p
      simp only at hpr
      rw [hpr, hyeff] at hfy
      simp only [joinedYearIs] at hfy
      exact of_decide_eq_true hfy
    have hcpe : r.cpe = m.cpe := by
      rw [hrc, hpk, ← hkfst, hec]
    exact h r hr ⟨hcpe, hyear⟩

/-- A reading for B1 dated in 2020. -/
def exReading2020 : SmartMeterRow :=
  ⟨"B1", "2020-05-01T00:00:00", 3⟩

/-- A store whose only reading for B1 falls outside 2021. -/
def exDbWrongYear : Db :=
  ⟨[exMetaA], [exReading2020], [], 0⟩

/-- Witness for C10: B1 has a reading only in 2020, so it is absent from
    the buildings-energy result for 2021. -/
theorem buildings_energy_inner_join_witness :
    exMetaA.cpe ∉ (apiBuildingsEnergy (some "2021") exDbWrongYear).map
      (fun e => e.1.cpe) :=
  buildings_energy_inner_join exDbWrongYear "2021" exMetaA (by decide)
    (List.Mem.head _) (by decide)

/- ------------------------------------------------------------------ -/
/- C7: GET /api/energy-breakdown — filter, order, LIMIT 24.            -/
/- ------------------------------------------------------------------ -/

/-- C7 amended: GET /api/energy-breakdown returns min(24, matches) rows —
    at most 24 — in ascending timestamp order; every returned row is one
    of the matching rows, where for a non-empty filter parameter t a row
    matches when its timestamp satisfies the SQL LIKE pattern t followed
    by % (ASCII-case-insensitively, with % and _ inside t acting as
    wildcards), and every matching row left out is timestamp-wise no
    earlier than every returned row, so the result is the earliest 24
    matches (the earliest 24 overall when no filter is given). -/
theorem breakdown_filter_order_limit (tsParam : Option String)
    (tbl : List BreakdownRow) :
    (apiEnergyBreakdown tsParam tbl).length
      = min 24 (breakdownMatches tsParam tbl).length
    ∧ List.Sorted tsAscRel (apiEnergyBreakdown tsParam tbl)
    ∧ (∀ r ∈ apiEnergyBreakdown tsParam tbl, r ∈ breakdownMatches tsParam tbl)
    ∧ (∀ r ∈ apiEnergyBreakdown tsParam tbl,
        ∀ x ∈ breakdownMatches tsParam tbl,
          x ∉ apiEnergyBreakdown tsParam tbl → r.timestamp ≤ x.timestamp)
    ∧ (∀ t, tsParam = some t → t ≠ "" →
        ∀ r ∈ apiEnergyBreakdown tsParam tbl,
          sqlLike (t ++ "%") r.timestamp = true) := by
  have hmem : ∀ r ∈ apiEnergyBreakdown tsParam tbl, r ∈ breakdownMatches tsParam tbl := by
    intro r hr
    unfold apiEnergyBreakdown at hr
    exact (List.perm_insertionSort tsAscRel _).mem_iff.mp (List.take_subset _ _ hr)
  refine ⟨?_, ?_, hmem, ?_, ?_⟩
  · unfold apiEnergyBreakdown
    rw [List.length_take, (List.perm_insertionSort tsAscRel _).length_eq]
  · unfold apiEnergyBreakdown
    exact List.Pairwise.sublist (List.take_sublist 24 _)
      (List.sorted_insertionSort tsAscRel _)
  · intro r hr x hx hxnot
    have hxs : x ∈ List.insertionSort tsAscRel (breakdownMatches tsParam tbl) :=
      (List.perm_insertionSort tsAscRel _).mem_iff.mpr hx
    have hsplit :=
      List.take_append_drop 24 (List.insertionSort tsAscRel (breakdownMatches tsParam tbl))
    rw [← hsplit] at hxs
    have hxd : x ∈ (List.insertionSort tsAscRel (breakdownMatches tsParam tbl)).drop 24 := by
      rcases List.mem_append.mp hxs with h1 | h1
      · exact absurd h1 hxnot
      · exact h1
    have hsorted : List.Pairwise tsAscRel
        ((List.insertionSort tsAscRel (breakdownMatches tsParam tbl)).take 24
          ++ (List.insertionSort tsAscRel (breakdownMatches tsParam tbl)).drop 24) := by
      rw [hsplit]
      exact List.sorted_insertionSort tsAscRel _
    exact (List.pairwise_append.mp hsorted).2.2 r hr x hxd
  · intro t ht hne r hr
    have hm := hmem r hr
    rw [ht] at hm
    simp only [breakdownMatches, if_neg hne] at hm
    exact (List.mem_filter.mp hm).2

/-- A stored breakdown row dated 2021-06-15 (id 1). -/
def exBreakdownRow : BreakdownRow :=
  ⟨1, "2021-06-15T04:00:00", 0, 0, 0, 0, 0, 0, 0, 0, 0, 0, 0, 0, 0, 0⟩

/-- C7 counterexample: SQLite LIKE is ASCII-case-insensitive, so with the
    filter parameter "2021-06-15t" the endpoint returns the stored row
    whose timestamp is "2021-06-15T04:00:00" although that timestamp does
    not begin with the given prefix — the claim's literal begins-with
    reading fails on the program. -/
theorem breakdown_prefix_counterexample :
    apiEnergyBreakdown (some "2021-06-15t") [exBreakdownRow] = [exBreakdownRow]
    ∧ "2021-06-15t".data.isPrefixOf exBreakdownRow.timestamp.data = false := by
  constructor
  · rfl
  · decide

/-- Witness for C7 amended: with a one-row table and the filter "2021",
    the returned row LIKE-matches the pattern 2021%. -/
theorem breakdown_filter_order_limit_witness :
    sqlLike ("2021" ++ "%") exBreakdownRow.timestamp = true :=
  (breakdown_filter_order_limit (some "2021") [exBreakdownRow]).2.2.2.2
    "2021" rfl (by decide) exBreakdownRow (List.Mem.head _)
